import Mathlib

/-!
Verification of the test discovery, filtering, sharding and dispatch engine
of build/android/run_tests.py (an Android native-test driver).

The Python source is shallowly embedded below. External collaborators
(device communication, the emulator module, the on-device shard runner,
the filesystem and option parsing) are passed in as explicit oracle
parameters, following the interface boundary in the design document.
Each definition carries a comment naming the source construct it embeds.
-/

set_option autoImplicit false

namespace RunTests

/-! ### Shell-glob matching (Python stdlib fnmatch)

The suppression filter at run_tests.py:247-250 removes every test that
matches some disabled pattern via fnmatch.fnmatch. fnmatch translates a
pattern where a star matches any run of characters, a question mark
matches one character, and a bracketed class matches one character from
the class (with a leading bang negating it, a bracket-close listed first
being literal, and dash ranges). On POSIX, case normalisation is the
identity. The matcher below is anchored at both ends, as fnmatch is.
The recursion is driven by a fuel argument that is always sufficient:
every step shortens the combined length of pattern and string. -/

/-- One character against the body of a bracket class: a dash between two
characters denotes an inclusive range, anything else is a literal. -/
def matchClass (c : Char) : List Char → Bool
  | a :: '-' :: b :: rest =>
      (decide (a ≤ c) && decide (c ≤ b)) || matchClass c rest
  | a :: rest => (c == a) || matchClass c rest
  | [] => false

/-- Scan forward to the bracket that closes a class; returns the class
body and the remainder of the pattern, or none when the class is
unterminated (fnmatch then treats the opening bracket as a literal). -/
def findClose : List Char → Option (List Char × List Char)
  | [] => none
  | ']' :: rest => some ([], rest)
  | c :: rest => (findClose rest).map (fun p => (c :: p.1, p.2))

/-- Parse a bracket class after its opening bracket, as fnmatch.translate
does: an initial bang negates, and a bracket-close immediately after it
belongs to the body. Returns (negated, body, rest of pattern). -/
def parseClass (ps : List Char) : Option (Bool × List Char × List Char) :=
  let step : Bool × List Char :=
    match ps with
    | '!' :: rest => (true, rest)
    | _ => (false, ps)
  match step.2 with
  | ']' :: rest => (findClose rest).map (fun p => (step.1, ']' :: p.1, p.2))
  | _ => (findClose step.2).map (fun p => (step.1, p.1, p.2))

/-- Anchored glob match of a pattern against a string, fuelled. Each
recursive call shortens pattern-length plus string-length, so the fuel
supplied by `fnmatch` below never runs out. -/
def globMatch : Nat → List Char → List Char → Bool
  | 0, _, _ => false
  | _ + 1, [], s => s.isEmpty
  | fuel + 1, '*' :: ps, s =>
      globMatch fuel ps s ||
        (match s with
         | [] => false
         | _ :: cs => globMatch fuel ('*' :: ps) cs)
  | fuel + 1, '?' :: ps, s =>
      (match s with
       | [] => false
       | _ :: cs => globMatch fuel ps cs)
  | fuel + 1, '[' :: ps, s =>
      (match parseClass ps with
       | some (neg, body, rest) =>
           (match s with
            | [] => false
            | c :: cs => (matchClass c body != neg) && globMatch fuel rest cs)
       | none =>
           (match s with
            | [] => false
            | c :: cs => (c == '[') && globMatch fuel ps cs))
  | fuel + 1, p :: ps, s =>
      (match s with
       | [] => false
       | c :: cs => (c == p) && globMatch fuel ps cs)

/-- Embeds fnmatch.fnmatch(name, pat) as used at run_tests.py:248. -/
def fnmatch (name pat : String) : Bool :=
  globMatch (pat.length + name.length + 1) pat.data name.data

/-! ### TestSharder._GetTestsFromDevice (run_tests.py:234-251)

The device interaction (StripAndCopyExecutable, GetAllTests, and the
GetDisabledTests file read) is external; its outcome enters as the
enumerated list and the disabled-pattern list. The in-repo logic is the
rebaseline bypass and the fnmatch-based filter. -/

/-- The pure tail of TestSharder._GetTestsFromDevice: given the tests the
device reported, drop every test matching some disabled pattern, unless
rebaselining (run_tests.py:244-251). -/
def GetTestsFromDevice (allTests : List String) (rebaseline : Bool)
    (disabledList : List String) : List String :=
  if rebaseline then allTests
  else allTests.filter (fun t => !(disabledList.any (fun p => fnmatch t p)))

/-- C3: under rebaseline the suppression filter is bypassed (the result is
the full enumeration, whatever the suppression file holds); otherwise a
test survives exactly when it is enumerated and matches no suppression
pattern under shell-glob semantics, so every matching test is removed. -/
theorem suppression_bypass_and_glob_removal
    (allTests disabledList : List String) :
    GetTestsFromDevice allTests true disabledList = allTests ∧
    (∀ t, t ∈ GetTestsFromDevice allTests false disabledList ↔
       t ∈ allTests ∧ ∀ p ∈ disabledList, fnmatch t p = false) := by
  constructor
  · rfl
  · intro t
    simp [GetTestsFromDevice, List.mem_filter]

/-- Witness for C3 on the scenario of the design document: enumeration
[A.t1, A.t2, B.t1] with suppression pattern A.t1; rebaseline keeps all
three, normal mode removes the match. -/
theorem suppression_bypass_and_glob_removal_witness :
    GetTestsFromDevice ["A.t1", "A.t2", "B.t1"] true ["A.t1"]
        = ["A.t1", "A.t2", "B.t1"] ∧
    ("A.t1" ∈ GetTestsFromDevice ["A.t1", "A.t2", "B.t1"] false ["A.t1"] ↔
       "A.t1" ∈ ["A.t1", "A.t2", "B.t1"] ∧
         ∀ p ∈ ["A.t1"], fnmatch "A.t1" p = false) :=
  ⟨(suppression_bypass_and_glob_removal ["A.t1", "A.t2", "B.t1"] ["A.t1"]).1,
   (suppression_bypass_and_glob_removal ["A.t1", "A.t2", "B.t1"] ["A.t1"]).2 "A.t1"⟩

/-- C9: the suppression filter is idempotent, in both rebaseline and
normal mode: filtering an already-filtered list with the same patterns
returns it unchanged. -/
theorem suppression_filter_idempotent (allTests disabledList : List String)
    (rebaseline : Bool) :
    GetTestsFromDevice (GetTestsFromDevice allTests rebaseline disabledList)
        rebaseline disabledList
      = GetTestsFromDevice allTests rebaseline disabledList := by
  cases rebaseline with
  | true => rfl
  | false => simp [GetTestsFromDevice, List.filter_filter]

/-! ### TestSharder.CreateShardedTestRunner (run_tests.py:253-272)

Sharding slices the enumerated test list. run_tests.py:264 computes
shard_size = (len(tests) + device_num - 1) / device_num with Python 2
integer division (floor), i.e. the ceiling of len(tests) / device_num,
and run_tests.py:265 takes tests[index * shard_size : (index + 1) *
shard_size], embedded as a drop followed by a take of shard_size. -/

/-- run_tests.py:264: the per-shard block size, ceiling division written
with the floor-division trick of the source. -/
def shard_size (numTests device_num : Nat) : Nat :=
  (numTests + device_num - 1) / device_num

/-- run_tests.py:265: the contiguous slice of the test list handed to the
runner at this device index. -/
def shard_test_list (tests : List String) (device_num index : Nat) :
    List String :=
  (tests.drop (index * shard_size tests.length device_num)).take
    (shard_size tests.length device_num)

/-- Modelled from the spec: the base sharder (pylib.base_test_sharder, not
under src/) calls CreateShardedTestRunner once per device, passing
consecutive indices in device-list order; each shard content is then the
slice computed at run_tests.py:265. -/
def BuildShards (tests devices : List String) : List (List String) :=
  (List.range devices.length).map (shard_test_list tests devices.length)

/-- Concatenating the k consecutive blocks of size s of a list recovers
the list, provided k * s covers its length. -/
theorem flatten_slices (s : Nat) :
    ∀ (k : Nat) (l : List String), l.length ≤ k * s →
      ((List.range k).map (fun i => (l.drop (i * s)).take s)).flatten = l := by
  intro k
  induction k with
  | zero =>
      intro l hl
      simp only [Nat.zero_mul, Nat.le_zero] at hl
      simp [List.eq_nil_of_length_eq_zero hl]
  | succ k ih =>
      intro l hl
      rw [List.range_succ_eq_map, List.map_cons, List.map_map,
        List.flatten_cons]
      have hslice :
          (List.range k).map ((fun i => (l.drop (i * s)).take s) ∘ Nat.succ)
            = (List.range k).map
                (fun i => ((l.drop s).drop (i * s)).take s) := by
        apply List.map_congr_left
        intro i _
        simp only [Function.comp_apply, List.drop_drop]
        congr 2
        rw [Nat.succ_mul]
        omega
      have hmul : (k + 1) * s = k * s + s := Nat.succ_mul k s
      rw [hslice, ih (l.drop s) (by simp only [List.length_drop]; omega)]
      simp [List.take_append_drop]

/-- The floor-division trick at run_tests.py:264 really is a ceiling:
device_num blocks of that size cover the whole test list. -/
theorem length_le_mul_shard_size (n d : Nat) (hd : 1 ≤ d) :
    n ≤ d * shard_size n d := by
  unfold shard_size
  have h1 := Nat.div_add_mod (n + d - 1) d
  have h2 := Nat.mod_lt (n + d - 1) (show 0 < d by omega)
  omega

/-- C1: with no explicit filter, the shards are contiguous slices of the
test list in device-list order whose concatenation is exactly the test
list (each identifier once, none dropped), one shard per device, each of
at most ceiling(len(tests)/device count) identifiers; with one device
there is a single shard holding the whole list. -/
theorem shards_partition_tests (tests devices : List String)
    (hD : 1 ≤ devices.length) :
    (BuildShards tests devices).flatten = tests ∧
    (BuildShards tests devices).length = devices.length ∧
    (∀ shard ∈ BuildShards tests devices,
       shard.length ≤ shard_size tests.length devices.length) ∧
    (devices.length = 1 → BuildShards tests devices = [tests]) := by
  refine ⟨?_, ?_, ?_, ?_⟩
  · unfold BuildShards shard_test_list
    exact flatten_slices _ _ tests
      (length_le_mul_shard_size tests.length devices.length hD)
  · simp [BuildShards]
  · intro shard hshard
    simp only [BuildShards, List.mem_map] at hshard
    obtain ⟨i, _, rfl⟩ := hshard
    exact List.length_take_le _ _
  · intro h1
    unfold BuildShards shard_test_list
    rw [h1]
    have hs : shard_size tests.length 1 = tests.length := by
      simp [shard_size]
    have hr : List.range 1 = [0] := rfl
    simp [hs, hr, List.take_length]

/-- Witness for C1 on the scenario of the design document: three tests
over two devices give shards [A.t1, A.t2] and [B.t1]. -/
theorem shards_partition_tests_witness :
    1 ≤ (["dev1", "dev2"] : List String).length ∧
    (BuildShards ["A.t1", "A.t2", "B.t1"] ["dev1", "dev2"]).flatten
        = ["A.t1", "A.t2", "B.t1"] :=
  ⟨by decide,
   (shards_partition_tests ["A.t1", "A.t2", "B.t1"] ["dev1", "dev2"]
      (by decide)).1⟩

/-! ### TestSharder._GetTests (run_tests.py:216-232)

The loop copies the attached-device list, repeatedly attempts
_GetTestsFromDevice on the LAST element, pops that element on failure,
returns (tests, remaining list) on success, and raises once the list is
empty. Device interaction is abstracted as an oracle from device to
Option (List String): none stands for a raised exception, some for the
list the device produced. Because the loop consumes the list strictly
from the back, it is embedded as structural recursion over the reversed
list; GetTestsAux walks the reversal and restores the surviving list by
reversing back. -/

/-- The while loop of run_tests.py:223-231, viewed from the back of the
list: the head of the reversed list is the device tried next. -/
def GetTestsAux (enum : String → Option (List String)) :
    List String → Option (List String × List String)
  | [] => none
  | d :: rest =>
      match enum d with
      | some tests => some (tests, (d :: rest).reverse)
      | none => GetTestsAux enum rest

/-- TestSharder._GetTests: returns (all_tests, available_devices) on the
first success, none when every device failed (the raised
"No device available to get the list of tests."). -/
def GetTests (enum : String → Option (List String))
    (attached_devices : List String) :
    Option (List String × List String) :=
  GetTestsAux enum attached_devices.reverse

/-- A successful walk of the reversed list splits it into failed devices,
the succeeding device, and the untried remainder. -/
theorem GetTestsAux_eq_some (enum : String → Option (List String)) :
    ∀ (l tests surviving : List String),
      GetTestsAux enum l = some (tests, surviving) →
      ∃ pre d post, l = pre ++ d :: post ∧
        (∀ x ∈ pre, enum x = none) ∧
        enum d = some tests ∧
        surviving = (d :: post).reverse := by
  intro l
  induction l with
  | nil => intro tests surviving h; simp [GetTestsAux] at h
  | cons d rest ih =>
      intro tests surviving h
      unfold GetTestsAux at h
      cases henum : enum d with
      | some ts =>
          rw [henum] at h
          injection h with h
          injection h with h1 h2
          exact ⟨[], d, rest, by simp, by simp, by rw [henum, h1],
            by rw [← h2]⟩
      | none =>
          rw [henum] at h
          obtain ⟨pre, d', post, hsplit, hpre, hd', hs⟩ := ih tests surviving h
          exact ⟨d :: pre, d', post, by rw [hsplit]; rfl,
            by intro x hx
               rcases List.mem_cons.mp hx with hx | hx
               · rw [hx]; exact henum
               · exact hpre x hx,
            hd', hs⟩

/-- When every device fails, the walk exhausts the list. -/
theorem GetTestsAux_eq_none (enum : String → Option (List String)) :
    ∀ l : List String, (∀ x ∈ l, enum x = none) →
      GetTestsAux enum l = none := by
  intro l
  induction l with
  | nil => intro _; rfl
  | cons d rest ih =>
      intro h
      unfold GetTestsAux
      rw [h d (List.mem_cons_self d rest)]
      exact ih (fun x hx => h x (List.mem_cons_of_mem d hx))

/-- C4: enumeration walks the device list from the back. On success the
surviving list is a prefix of the original: the original equals the
surviving list followed by exactly the devices that failed (tried
back-to-front), the last surviving device is the one that succeeded, and
its answer is the returned test list. If every device fails, the
operation yields the no-device failure. -/
theorem enumeration_back_to_front_retry
    (enum : String → Option (List String)) (devices : List String) :
    (∀ tests surviving,
       GetTests enum devices = some (tests, surviving) →
       ∃ failed, devices = surviving ++ failed ∧
         (∀ d ∈ failed, enum d = none) ∧
         ∃ h : surviving ≠ [], enum (surviving.getLast h) = some tests) ∧
    ((∀ d ∈ devices, enum d = none) → GetTests enum devices = none) := by
  constructor
  · intro tests surviving h
    obtain ⟨pre, d, post, hsplit, hpre, hd, hs⟩ :=
      GetTestsAux_eq_some enum devices.reverse tests surviving h
    have hdev : devices = post.reverse ++ [d] ++ pre.reverse := by
      have := congrArg List.reverse hsplit
      simpa [List.reverse_append] using this
    have hsurv : surviving = post.reverse ++ [d] := by
      simpa using hs
    refine ⟨pre.reverse, by rw [hdev, hsurv], ?_, ?_⟩
    · intro x hx
      exact hpre x (List.mem_reverse.mp hx)
    · have hne : surviving ≠ [] := by rw [hsurv]; simp
      refine ⟨hne, ?_⟩
      have hlast : surviving.getLast hne = d := by
        subst hsurv
        exact List.getLast_append_singleton post.reverse
      rw [hlast]
      exact hd
  · intro h
    exact GetTestsAux_eq_none enum devices.reverse
      (fun x hx => h x (List.mem_reverse.mp hx))

/-- A concrete enumeration oracle for the C4 witness: device devX fails,
every other device answers with one test. -/
def enumScenario : String → Option (List String) :=
  fun d => if d = "devX" then none else some ["Foo.test"]

/-- Witness for C4 on the scenario of the design document: enumeration
fails on devX (the last device) but succeeds on devY; the surviving list
excludes devX and the tests come from devY. -/
theorem enumeration_back_to_front_retry_witness :
    ∃ failed, (["devY", "devX"] : List String) = ["devY"] ++ failed ∧
      (∀ d ∈ failed, enumScenario d = none) ∧
      ∃ h : (["devY"] : List String) ≠ [],
        enumScenario ((["devY"] : List String).getLast h)
          = some ["Foo.test"] :=
  (enumeration_back_to_front_retry enumScenario ["devY", "devX"]).1
    ["Foo.test"] ["devY"] rfl

/-! ### Options and the external environment

Options mirrors the optparse surface of run_tests.py:396-449, restricted
to the fields the engine reads. gtest_filter is the empty string when
the flag is absent (the source coerces None with gtest_filter or at
run_tests.py:200 and tests truthiness elsewhere). Env packages every
external collaborator as an oracle: the filesystem, the device layer,
the suppression file, and the black-box shard runner. -/

structure Options where
  test_suite : Option String
  test_device : Option String
  gtest_filter : String
  rebaseline : Bool
  performance_test : Bool
  use_emulator : Bool
  use_xvfb : Bool
  exit_code : Bool
  exe : Bool
  build_type : String

/-- The external world of one run. pathExists stands for
os.path.exists; outDirectory for cmd_helper.OutDirectory.get();
emulatorDevices for the devices of the launched emulators (the emulator
module is external); attachedDevices for
android_commands.GetAttachedDevices(); portResetOk for
ports.ResetTestServerPortAllocation(); deviceTests for
GetAllTests on a device, none standing for a raised exception;
disabledList for the patterns GetDisabledTests loads; shardFailures for
the failed-test count that the external shard runners report for a
suite (len of TestResults.failed). -/
structure Env where
  pathExists : String → Bool
  outDirectory : String
  emulatorDevices : List String
  attachedDevices : List String
  portResetOk : Bool
  deviceTests : String → Option (List String)
  disabledList : List String
  shardFailures : String → Nat

/-! ### FullyQualifiedTestSuites (run_tests.py:92-122) -/

/-- The fixed suite catalog, run_tests.py:76-89. -/
def TEST_SUITES : List String :=
  ["base_unittests", "cc_unittests", "cc_perftests", "content_unittests",
   "gpu_unittests", "ipc_tests", "media_unittests", "net_unittests",
   "sql_unittests", "sync_unit_tests", "ui_unittests", "unit_tests",
   "webkit_compositor_bindings_unittests"]

/-- The on-disk artifact for one suite (run_tests.py:107-114): the bare
binary under the build directory with the exe runner, otherwise the apk
under a per-suite folder. Paths join with a slash as os.path.join does
on POSIX. -/
def qualifiedSuitePath (exe : Bool) (test_suite_dir t : String) : String :=
  if exe then test_suite_dir ++ "/" ++ t
  else test_suite_dir ++ "/" ++ t ++ "_apk/" ++ t ++ "-debug.apk"

/-- run_tests.py:92-122: resolve the requested suite (or the whole
catalog) to artifact paths; if any artifact is missing the function
logs and returns the empty list. -/
def FullyQualifiedTestSuites (pathExists : String → Bool) (exe : Bool)
    (option_test_suite : Option String)
    (outDirectory build_type : String) : List String :=
  let test_suite_dir := outDirectory ++ "/" ++ build_type
  let all_test_suites :=
    match option_test_suite with
    | some t => [t]
    | none => TEST_SUITES
  let qualified_test_suites :=
    all_test_suites.map (qualifiedSuitePath exe test_suite_dir)
  if qualified_test_suites.all pathExists then qualified_test_suites else []

/-! ### _RunATestSuite (run_tests.py:289-352) -/

/-- Device acquisition, run_tests.py:307-325: emulator devices when
requested, else the explicitly named device, else every attached
device. -/
def acquireDevices (env : Env) (opts : Options) : List String :=
  if opts.use_emulator then env.emulatorDevices
  else
    match opts.test_device with
    | some d => [d]
    | none => env.attachedDevices

/-- run_tests.py:337-339: a performance test or an explicit gtest filter
forces the run onto the first device only. The caller guarantees the
list is non-empty (checked at run_tests.py:327), where taking the first
element equals the singleton of the head. -/
def forceSingleDevice (performance_test : Bool) (gtest_filter : String)
    (attached_devices : List String) : List String :=
  if performance_test = true ∨ gtest_filter ≠ "" then attached_devices.take 1
  else attached_devices

/-- The sharder fields that the engine logic reads, as set by
TestSharder.__init__ (run_tests.py:193-214). -/
structure SharderState where
  gtest_filter : String
  tests : List String
  attached_devices : List String

/-- The enumeration attempt on one device as _GetTestsFromDevice performs
it: the device oracle yields the raw list (none for a raised exception),
then the suppression filter applies (run_tests.py:234-251). -/
def deviceEnum (env : Env) (rebaseline : Bool) (device : String) :
    Option (List String) :=
  (env.deviceTests device).map
    (fun allTests => GetTestsFromDevice allTests rebaseline env.disabledList)

/-- TestSharder.__init__ (run_tests.py:193-214): tests start empty; only
when no filter is given are they enumerated (updating the device list);
none propagates the enumeration exception. -/
def TestSharderInit (attached_devices : List String) (gtest_filter : String)
    (enum : String → Option (List String)) : Option SharderState :=
  if gtest_filter = "" then
    match GetTests enum attached_devices with
    | none => none
    | some (tests, devices) => some ⟨gtest_filter, tests, devices⟩
  else some ⟨gtest_filter, [], attached_devices⟩

/-- The per-shard runner configuration built at run_tests.py:253-272:
the device and the filter string, the colon-joined shard slice followed
by the caller-supplied filter. -/
structure ShardRunnerConfig where
  device : String
  test_filter : String

/-- TestSharder.CreateShardedTestRunner (run_tests.py:253-272). -/
def CreateShardedTestRunner (st : SharderState) (device : String)
    (index : Nat) : ShardRunnerConfig :=
  ⟨device,
   String.intercalate ":"
       (shard_test_list st.tests st.attached_devices.length index)
     ++ st.gtest_filter⟩

/-- _RunATestSuite (run_tests.py:289-352) as a fallible computation:
ok n is a normal return with failure count n, error is a raised
exception escaping the function. Zero devices return failure count 1
(run_tests.py:327-330); a failed port reset raises (run_tests.py:334-
335); sharder construction raises when every device fails enumeration;
otherwise the external shard runners produce the failed-test count
(run_tests.py:347-352). -/
def RunATestSuite (env : Env) (opts : Options) (suite : String) :
    Except String Nat :=
  let attached_devices := acquireDevices env opts
  if attached_devices.isEmpty then Except.ok 1
  else if env.portResetOk = false then
    Except.error "Failed to reset test server port."
  else
    match TestSharderInit
        (forceSingleDevice opts.performance_test opts.gtest_filter
          attached_devices)
        opts.gtest_filter (deviceEnum env opts.rebaseline) with
    | none => Except.error "No device available to get the list of tests."
    | some _ => Except.ok (env.shardFailures suite)

/-! ### Dispatch (run_tests.py:355-386) and main (run_tests.py:396-471)

Dispatch is traced: besides the Except result it records the order of
the observable resource events, so that the bracketing of the virtual
display around the suite loop is a provable statement. -/

inductive DispatchEvent where
  | xvfbStart : DispatchEvent
  | xvfbStop : DispatchEvent
  | runSuite : String → DispatchEvent
deriving DecidableEq

/-- The suite loop of Dispatch (run_tests.py:377-382): failures add up
across suites; an exception raised by a suite stops the loop at once and
propagates. -/
def DispatchLoop (run : String → Except String Nat) :
    List String → Except String Nat × List DispatchEvent
  | [] => (Except.ok 0, [])
  | s :: rest =>
      match run s with
      | Except.error e => (Except.error e, [DispatchEvent.runSuite s])
      | Except.ok n =>
          match DispatchLoop run rest with
          | (Except.error e, evs) =>
              (Except.error e, DispatchEvent.runSuite s :: evs)
          | (Except.ok m, evs) =>
              (Except.ok (n + m), DispatchEvent.runSuite s :: evs)

/-- The suite list Dispatch resolves at run_tests.py:375-376. -/
def ResolvedSuites (env : Env) (opts : Options) : List String :=
  FullyQualifiedTestSuites env.pathExists opts.exe opts.test_suite
    env.outDirectory opts.build_type

/-- Dispatch (run_tests.py:355-386): the help catalog short-circuits;
otherwise Xvfb starts when requested, the resolved suites run in order,
and Xvfb stops when requested — but only on the normal return path,
since the source has no protection of the stop call against an
exception escaping the loop. -/
def Dispatch (env : Env) (opts : Options) :
    Except String Nat × List DispatchEvent :=
  if opts.test_suite = some "help" then (Except.ok 0, [])
  else
    let pre := if opts.use_xvfb then [DispatchEvent.xvfbStart] else []
    match DispatchLoop (RunATestSuite env opts) (ResolvedSuites env opts) with
    | (Except.error e, evs) => (Except.error e, pre ++ evs)
    | (Except.ok n, evs) =>
        (Except.ok n,
         pre ++ evs ++ (if opts.use_xvfb then [DispatchEvent.xvfbStop] else []))

/-- The exit-code policy of main (run_tests.py:460-471): the failure
total only becomes the exit status under the exit-code option, else the
process exits 0. -/
def mainExitCode (exit_code : Bool) (failed_tests_count : Nat) : Nat :=
  if exit_code then failed_tests_count else 0

/-- C2: with a non-empty explicit filter or a performance run, the device
list is forced to exactly its first element before the sharder is built,
however many devices the pool holds. -/
theorem filter_or_perf_forces_single_device (performance_test : Bool)
    (gtest_filter : String) (attached_devices : List String)
    (hne : attached_devices ≠ [])
    (hcond : gtest_filter ≠ "" ∨ performance_test = true) :
    forceSingleDevice performance_test gtest_filter attached_devices
      = [attached_devices.head hne] := by
  unfold forceSingleDevice
  rw [if_pos (hcond.elim Or.inr Or.inl)]
  cases attached_devices with
  | nil => exact absurd rfl hne
  | cons d rest => rfl

/-- Witness for C2 on the scenario of the design document: a gtest filter
with three attached devices leaves exactly one device in use. -/
theorem filter_or_perf_forces_single_device_witness :
    forceSingleDevice false "Foo.bar" ["d1", "d2", "d3"] = ["d1"] := by
  have h := filter_or_perf_forces_single_device false "Foo.bar"
    ["d1", "d2", "d3"] (by decide) (Or.inl (by decide))
  simpa using h

/-- C10: a non-empty explicit filter makes sharder construction skip
enumeration and suppression entirely — the state is fixed with an empty
test list, independent of the enumeration oracle — and every shard
runner receives exactly the caller-supplied filter string. -/
theorem explicit_filter_skips_enumeration (attached_devices : List String)
    (gtest_filter : String) (enum enum' : String → Option (List String))
    (h : gtest_filter ≠ "") :
    TestSharderInit attached_devices gtest_filter enum
        = some ⟨gtest_filter, [], attached_devices⟩ ∧
    TestSharderInit attached_devices gtest_filter enum
        = TestSharderInit attached_devices gtest_filter enum' ∧
    ∀ device index,
      (CreateShardedTestRunner ⟨gtest_filter, [], attached_devices⟩
          device index).test_filter = gtest_filter := by
  refine ⟨?_, ?_, ?_⟩
  · unfold TestSharderInit
    rw [if_neg h]
  · unfold TestSharderInit
    rw [if_neg h, if_neg h]
  · intro device index
    show String.intercalate ":"
        (shard_test_list [] attached_devices.length index) ++ gtest_filter
      = gtest_filter
    have h1 : shard_test_list [] attached_devices.length index = [] := by
      simp [shard_test_list]
    rw [h1]
    cases gtest_filter with
    | mk data => rfl

/-- Witness for C10: with filter Foo.* the sharder state keeps no tests,
is the same under two different enumeration oracles, and the shard filter
is Foo.* verbatim. -/
theorem explicit_filter_skips_enumeration_witness :
    TestSharderInit ["d1"] "Foo.*" (fun _ => none)
        = some ⟨"Foo.*", [], ["d1"]⟩ ∧
    (CreateShardedTestRunner ⟨"Foo.*", [], ["d1"]⟩ "d1" 0).test_filter
        = "Foo.*" :=
  ⟨(explicit_filter_skips_enumeration ["d1"] "Foo.*" (fun _ => none)
      (fun _ => some ["X.y"]) (by decide)).1,
   (explicit_filter_skips_enumeration ["d1"] "Foo.*" (fun _ => none)
      (fun _ => some ["X.y"]) (by decide)).2.2 "d1" 0⟩

/-- C8: when every suite returns normally, the suite loop returns the sum
of the per-suite failure counts, and the process exit code is that sum
exactly when the exit-code option is set, else 0 however large the sum. -/
theorem exit_code_reflects_failures_only_when_requested
    (run : String → Except String Nat) (f : String → Nat)
    (suites : List String) (h : ∀ s ∈ suites, run s = Except.ok (f s)) :
    (DispatchLoop run suites).1 = Except.ok ((suites.map f).sum) ∧
    mainExitCode false ((suites.map f).sum) = 0 ∧
    mainExitCode true ((suites.map f).sum) = (suites.map f).sum := by
  refine ⟨?_, rfl, rfl⟩
  induction suites with
  | nil => rfl
  | cons s rest ih =>
      have hs := h s (List.mem_cons_self s rest)
      have hrest := ih (fun x hx => h x (List.mem_cons_of_mem s hx))
      rcases hLoop : DispatchLoop run rest with ⟨r, evs⟩
      rw [hLoop] at hrest
      simp only at hrest
      subst hrest
      simp [DispatchLoop, hs, hLoop, List.sum_cons]

/-- A concrete run oracle for the C8 witness: suiteA fails 2 tests,
every other suite fails 3. -/
def runCounts : String → Nat := fun s => if s = "suiteA" then 2 else 3

/-- Witness for C8: two suites failing 2 and 3 tests sum to 5; the exit
code is 5 with the exit-code option and 0 without. -/
theorem exit_code_reflects_failures_only_when_requested_witness :
    (DispatchLoop (fun s => Except.ok (runCounts s))
        ["suiteA", "suiteB"]).1
      = Except.ok (((["suiteA", "suiteB"] : List String).map runCounts).sum) ∧
    mainExitCode false
        (((["suiteA", "suiteB"] : List String).map runCounts).sum) = 0 ∧
    mainExitCode true
        (((["suiteA", "suiteB"] : List String).map runCounts).sum)
      = ((["suiteA", "suiteB"] : List String).map runCounts).sum :=
  exit_code_reflects_failures_only_when_requested
    (fun s => Except.ok (runCounts s)) runCounts ["suiteA", "suiteB"]
    (fun _ _ => rfl)

/-! ### Concrete environments used to settle the dispatcher claims -/

/-- Baseline options: no explicit suite or device, no filter, no special
modes. -/
def optsPlain : Options :=
  { test_suite := none, test_device := none, gtest_filter := "",
    rebaseline := false, performance_test := false, use_emulator := false,
    use_xvfb := false, exit_code := false, exe := true,
    build_type := "Debug" }

/-- An environment whose single attached device fails every enumeration
attempt, so sharder construction raises. -/
def envAllEnumFail : Env :=
  { pathExists := fun _ => true, outDirectory := "out",
    emulatorDevices := [], attachedDevices := ["dev0"],
    portResetOk := true, deviceTests := fun _ => none,
    disabledList := [], shardFailures := fun _ => 0 }

/-- An environment with no devices attached at all. -/
def envNoDevices : Env :=
  { pathExists := fun _ => true, outDirectory := "out",
    emulatorDevices := [], attachedDevices := [],
    portResetOk := true, deviceTests := fun _ => some [],
    disabledList := [], shardFailures := fun _ => 0 }

/-- C5 counterexample: a per-suite terminal failure that is an exception
(every device failed enumeration) aborts the whole batch: the first
suite errors, and the two-suite loop yields that error instead of a
summed failure count, so the second suite never contributes. -/
theorem suite_exception_aborts_batch_counterexample :
    RunATestSuite envAllEnumFail optsPlain "suiteA"
        = Except.error "No device available to get the list of tests." ∧
    (DispatchLoop (RunATestSuite envAllEnumFail optsPlain)
        ["suiteA", "suiteB"]).1
        = Except.error "No device available to get the list of tests." ∧
    (DispatchLoop (RunATestSuite envAllEnumFail optsPlain)
        ["suiteA", "suiteB"]).1
      ≠ Except.ok (((["suiteA", "suiteB"] : List String).map
          envAllEnumFail.shardFailures).sum) := by
  refine ⟨rfl, rfl, fun h => ?_⟩
  rw [show (DispatchLoop (RunATestSuite envAllEnumFail optsPlain)
        ["suiteA", "suiteB"]).1
      = Except.error "No device available to get the list of tests."
    from rfl] at h
  exact Except.noConfusion h

/-- C5 as amended: a zero-device failure is non-fatal — the suite
contributes failure count 1 and the loop carries on summing over the
remaining suites — whereas exceptions (port reset, enumeration) abort
the batch as the counterexample shows. -/
theorem zero_devices_counts_one_and_continues
    (env : Env) (opts : Options) (suite : String) (rest : List String)
    (hemu : opts.use_emulator = false)
    (hdev : opts.test_device = none)
    (hatt : env.attachedDevices = []) :
    RunATestSuite env opts suite = Except.ok 1 ∧
    ∀ m, (DispatchLoop (RunATestSuite env opts) rest).1 = Except.ok m →
      (DispatchLoop (RunATestSuite env opts) (suite :: rest)).1
        = Except.ok (1 + m) := by
  have hrun : ∀ s, RunATestSuite env opts s = Except.ok 1 := by
    intro s
    unfold RunATestSuite acquireDevices
    rw [hemu, hdev]
    simp [hatt]
  refine ⟨hrun suite, ?_⟩
  intro m hm
  rcases hLoop : DispatchLoop (RunATestSuite env opts) rest with ⟨r, evs⟩
  rw [hLoop] at hm
  simp only at hm
  subst hm
  simp [DispatchLoop, hrun suite, hLoop]

/-- Witness for the amended C5: with no devices attached, both suites
count 1 failure each and the loop totals 2. -/
theorem zero_devices_counts_one_and_continues_witness :
    RunATestSuite envNoDevices optsPlain "suiteA" = Except.ok 1 ∧
    (DispatchLoop (RunATestSuite envNoDevices optsPlain)
        ["suiteA", "suiteB"]).1 = Except.ok (1 + 1) :=
  ⟨(zero_devices_counts_one_and_continues envNoDevices optsPlain "suiteA"
      ["suiteB"] rfl rfl rfl).1,
   (zero_devices_counts_one_and_continues envNoDevices optsPlain "suiteA"
      ["suiteB"] rfl rfl rfl).2 1 rfl⟩

/-! ### C6: the virtual display around the suite loop -/

/-- The suite loop emits only suite events: the virtual display is
touched outside it. -/
theorem DispatchLoop_events_are_suites (run : String → Except String Nat) :
    ∀ l : List String, ∀ e ∈ (DispatchLoop run l).2,
      ∃ s, e = DispatchEvent.runSuite s := by
  intro l
  induction l with
  | nil => intro e he; simp [DispatchLoop] at he
  | cons s rest ih =>
      intro e he
      unfold DispatchLoop at he
      cases hrun : run s with
      | error msg =>
          rw [hrun] at he
          simp only [List.mem_singleton] at he
          exact ⟨s, he⟩
      | ok n =>
          rw [hrun] at he
          rcases hLoop : DispatchLoop run rest with ⟨r, evs⟩
          rw [hLoop] at he
          cases r with
          | error msg =>
              simp only [List.mem_cons] at he
              rcases he with rfl | he
              · exact ⟨s, rfl⟩
              · exact ih e (by rw [hLoop]; exact he)
          | ok m =>
              simp only [List.mem_cons] at he
              rcases he with rfl | he
              · exact ⟨s, rfl⟩
              · exact ih e (by rw [hLoop]; exact he)

/-- An environment whose port reset fails, so every suite raises. -/
def envPortFail : Env :=
  { pathExists := fun _ => true, outDirectory := "out",
    emulatorDevices := [], attachedDevices := ["dev0"],
    portResetOk := false, deviceTests := fun _ => some [],
    disabledList := [], shardFailures := fun _ => 0 }

/-- Options requesting Xvfb around a single explicitly named suite. -/
def optsXvfb : Options :=
  { test_suite := some "base_unittests", test_device := none,
    gtest_filter := "", rebaseline := false, performance_test := false,
    use_emulator := false, use_xvfb := true, exit_code := false,
    exe := true, build_type := "Debug" }

/-- C6 counterexample: on an exception path the virtual display is NOT
released — the run starts Xvfb, the suite raises, and the trace ends
without a stop event. -/
theorem xvfb_not_released_on_exception_counterexample :
    Dispatch envPortFail optsXvfb
      = (Except.error "Failed to reset test server port.",
         [DispatchEvent.xvfbStart,
          DispatchEvent.runSuite "out/Debug/base_unittests"]) ∧
    DispatchEvent.xvfbStop ∉ (Dispatch envPortFail optsXvfb).2 := by
  constructor
  · rfl
  · rw [show (Dispatch envPortFail optsXvfb).2
        = [DispatchEvent.xvfbStart,
           DispatchEvent.runSuite "out/Debug/base_unittests"] from rfl]
    decide

/-- C6 as amended: when Xvfb is requested and the suite loop returns
normally, the trace is exactly one start, then only suite events, then
one stop: acquired once before the first suite, released once after the
last — but this bracketing holds only on the exception-free path, as the
counterexample shows. -/
theorem xvfb_brackets_loop_on_normal_path (env : Env) (opts : Options)
    (n : Nat) (evs : List DispatchEvent)
    (hx : opts.use_xvfb = true)
    (hh : opts.test_suite ≠ some "help")
    (hok : DispatchLoop (RunATestSuite env opts) (ResolvedSuites env opts)
        = (Except.ok n, evs)) :
    (Dispatch env opts).1 = Except.ok n ∧
    (Dispatch env opts).2
      = DispatchEvent.xvfbStart :: (evs ++ [DispatchEvent.xvfbStop]) ∧
    ∀ e ∈ evs, ∃ s, e = DispatchEvent.runSuite s := by
  have hd : Dispatch env opts
      = (Except.ok n,
         DispatchEvent.xvfbStart :: (evs ++ [DispatchEvent.xvfbStop])) := by
    unfold Dispatch
    rw [if_neg hh, hok, hx]
    simp
  refine ⟨by rw [hd], by rw [hd], ?_⟩
  intro e he
  exact DispatchLoop_events_are_suites (RunATestSuite env opts)
    (ResolvedSuites env opts) e (by rw [hok]; exact he)

/-- An environment where everything succeeds: the device enumerates one
test and the shard runner reports no failures. -/
def envHealthy : Env :=
  { pathExists := fun _ => true, outDirectory := "out",
    emulatorDevices := [], attachedDevices := ["dev0"],
    portResetOk := true, deviceTests := fun _ => some ["A.t1"],
    disabledList := [], shardFailures := fun _ => 0 }

/-- Witness for the amended C6: a healthy single-suite run under Xvfb
produces the trace start, suite, stop. -/
theorem xvfb_brackets_loop_on_normal_path_witness :
    (Dispatch envHealthy optsXvfb).1 = Except.ok 0 ∧
    (Dispatch envHealthy optsXvfb).2
      = DispatchEvent.xvfbStart ::
          ([DispatchEvent.runSuite "out/Debug/base_unittests"]
            ++ [DispatchEvent.xvfbStop]) :=
  ⟨(xvfb_brackets_loop_on_normal_path envHealthy optsXvfb 0
      [DispatchEvent.runSuite "out/Debug/base_unittests"]
      rfl (by decide) rfl).1,
   (xvfb_brackets_loop_on_normal_path envHealthy optsXvfb 0
      [DispatchEvent.runSuite "out/Debug/base_unittests"]
      rfl (by decide) rfl).2.1⟩

/-! ### C7: a missing suite binary -/

/-- An environment in which no artifact exists on disk. -/
def envNoBinary : Env :=
  { pathExists := fun _ => false, outDirectory := "out",
    emulatorDevices := [], attachedDevices := ["dev0"],
    portResetOk := true, deviceTests := fun _ => some ["A.t1"],
    disabledList := [], shardFailures := fun _ => 7 }

/-- Options naming one suite whose binary will be missing. -/
def optsSuite : Options :=
  { test_suite := some "base_unittests", test_device := none,
    gtest_filter := "", rebaseline := false, performance_test := false,
    use_emulator := false, use_xvfb := false, exit_code := false,
    exe := true, build_type := "Debug" }

/-- C7 counterexample: with the requested binary missing on disk, suite
resolution yields the empty list and the run completes NORMALLY with
failure count 0 — the process exit code is 0 whether or not the
exit-code option is set — instead of aborting fatally. -/
theorem missing_binary_run_succeeds_counterexample :
    FullyQualifiedTestSuites (fun _ => false) true (some "base_unittests")
        "out" "Debug" = [] ∧
    Dispatch envNoBinary optsSuite = (Except.ok 0, []) ∧
    mainExitCode false 0 = 0 ∧
    mainExitCode true 0 = 0 :=
  ⟨rfl, rfl, rfl, rfl⟩

/-- C7 as amended: a missing artifact makes resolution return the empty
suite list, so the dispatcher runs no suite at all (including any whose
artifacts exist) and reports zero failures; the failure is a logged
message, not a fatal abort. -/
theorem missing_binary_skips_all_suites (pathExists : String → Bool)
    (exe : Bool) (t outDirectory build_type : String)
    (h : pathExists
        (qualifiedSuitePath exe (outDirectory ++ "/" ++ build_type) t)
      = false) :
    FullyQualifiedTestSuites pathExists exe (some t) outDirectory build_type
        = [] ∧
    ∀ run : String → Except String Nat,
      DispatchLoop run
          (FullyQualifiedTestSuites pathExists exe (some t) outDirectory
            build_type)
        = (Except.ok 0, []) := by
  have h1 : FullyQualifiedTestSuites pathExists exe (some t) outDirectory
      build_type = [] := by
    unfold FullyQualifiedTestSuites
    simp [h]
  exact ⟨h1, fun run => by rw [h1]; rfl⟩

/-- Witness for the amended C7: a filesystem without the base_unittests
binary resolves to no suites and the loop reports zero failures. -/
theorem missing_binary_skips_all_suites_witness :
    FullyQualifiedTestSuites (fun _ => false) true (some "base_unittests")
        "outdir" "Release" = [] ∧
    DispatchLoop (fun _ => Except.ok 5)
        (FullyQualifiedTestSuites (fun _ => false) true
          (some "base_unittests") "outdir" "Release")
      = (Except.ok 0, []) :=
  ⟨(missing_binary_skips_all_suites (fun _ => false) true "base_unittests"
      "outdir" "Release" rfl).1,
   (missing_binary_skips_all_suites (fun _ => false) true "base_unittests"
      "outdir" "Release" rfl).2 (fun _ => Except.ok 5)⟩

end RunTests
